/-
  Verification of the agentic-RAG query orchestrator
  (internal/service/rag.go of alextavella/agentic-rag).

  The Go service is shallowly embedded: collaborators (Document Store,
  LLM Client) are oracle functions supplied as data, the Go context is an
  explicit value, outbound collaborator calls are recorded in an event
  trace, and fallible operations return `Except`/`Option` values.
-/
import Mathlib

set_option maxRecDepth 1000000

namespace AgenticRAG

/-! ## Go contexts

A `context.Context` is modelled as a value recording how it was derived:
either some parent context handed to the service, or a child produced by
`context.WithTimeout(parent, d)` (durations kept abstract as `Nat`). -/

inductive Ctx where
  | root : Ctx
  | withTimeout (parent : Ctx) (duration : Nat) : Ctx
deriving Repr, DecidableEq

/-! ## Errors

Go `error` values that the service produces or receives.  Sentinel errors
from `internal/domain/errors.go` are constructors; `domain.ValidationError`
carries its `Field` and `Message`; `fmt.Errorf("...: %w", err)` wrapping is
the `wrapped` constructor; errors coming from collaborators or from the
JSON decoder that the service never inspects are `other`. -/

inductive GoError where
  | queryEmpty
  | queryTooShort
  | queryTooLong
  | documentInvalid
  | repoUnavailable
  | repoTimeout
  | llmUnavailable
  | llmTimeout
  | llmQuotaExceeded
  | llmInvalidResponse
  | validation (field : String) (message : String)
  | wrapped (msg : String) (cause : GoError)
  | other (msg : String)
deriving Repr, DecidableEq

/-! ## JSON values

`map[string]interface{}` values decoded by `encoding/json`.  Numbers keep
their source lexeme (the service never reads a numeric argument). -/

inductive Json where
  | null
  | bool (b : Bool)
  | num (lexeme : String)
  | str (s : String)
  | arr (elems : List Json)
  | obj (fields : List (String × Json))
deriving Repr, BEq, Inhabited

/-- Go map lookup for an object decoded from JSON: on duplicate keys the
decoder keeps the last value, so lookup returns the last binding. -/
def jsonLookup (fields : List (String × Json)) (key : String) : Option Json :=
  ((fields.filter (fun f => f.1 == key)).getLast?).map (fun f => f.2)

/-! ## A model of `encoding/json.Unmarshal` into `map[string]interface{}`

Recursive-descent JSON parsing with explicit fuel (the input length bounds
the recursion depth).  Whitespace, the five literal forms, strings with the
standard escapes (`\uXXXX` without surrogate-pair combination), numbers
(lexeme kept), arrays and objects are supported; trailing garbage is an
error, matching `json.Unmarshal`. -/

def isJsonWs (c : Char) : Bool :=
  c == ' ' || c == '\t' || c == '\n' || c == '\r'

def skipWs (cs : List Char) : List Char :=
  cs.dropWhile isJsonWs

def hexDigit (c : Char) : Option Nat :=
  if '0' ≤ c ∧ c ≤ '9' then some (c.toNat - '0'.toNat)
  else if 'a' ≤ c ∧ c ≤ 'f' then some (c.toNat - 'a'.toNat + 10)
  else if 'A' ≤ c ∧ c ≤ 'F' then some (c.toNat - 'A'.toNat + 10)
  else none

def parseJsonString (fuel : Nat) (cs : List Char) (acc : List Char) :
    Option (String × List Char) :=
  match fuel with
  | 0 => none
  | fuel + 1 =>
    match cs with
    | [] => none
    | '"' :: rest => some (String.mk acc.reverse, rest)
    | '\\' :: esc :: rest =>
      match esc with
      | '"' => parseJsonString fuel rest ('"' :: acc)
      | '\\' => parseJsonString fuel rest ('\\' :: acc)
      | '/' => parseJsonString fuel rest ('/' :: acc)
      | 'b' => parseJsonString fuel rest ('\x08' :: acc)
      | 'f' => parseJsonString fuel rest ('\x0c' :: acc)
      | 'n' => parseJsonString fuel rest ('\n' :: acc)
      | 'r' => parseJsonString fuel rest ('\r' :: acc)
      | 't' => parseJsonString fuel rest ('\t' :: acc)
      | 'u' =>
        match rest with
        | h1 :: h2 :: h3 :: h4 :: rest' =>
          match hexDigit h1, hexDigit h2, hexDigit h3, hexDigit h4 with
          | some a, some b, some c, some d =>
            parseJsonString fuel rest'
              (Char.ofNat (((a * 16 + b) * 16 + c) * 16 + d) :: acc)
          | _, _, _, _ => none
        | _ => none
      | _ => none
    | c :: rest =>
      if c.toNat < 32 then none
      else parseJsonString fuel rest (c :: acc)

def spanDigits (cs : List Char) : List Char × List Char :=
  (cs.takeWhile Char.isDigit, cs.dropWhile Char.isDigit)

/-- Lexes a JSON number, returning its lexeme. -/
def parseJsonNumber (cs : List Char) : Option (String × List Char) :=
  let (sign, cs₁) :=
    match cs with
    | '-' :: rest => (['-'], rest)
    | _ => (([] : List Char), cs)
  let (intPart, cs₂) := spanDigits cs₁
  if intPart.isEmpty then none
  else
    let (fracPart, cs₃) :=
      match cs₂ with
      | '.' :: rest =>
        let (ds, rest') := spanDigits rest
        if ds.isEmpty then (none, cs₂) else (some ('.' :: ds), rest')
      | _ => (none, cs₂)
    match fracPart with
    | none =>
      match expPart cs₃ with
      | none => some (String.mk (sign ++ intPart), cs₃)
      | some (es, cs₄) => some (String.mk (sign ++ intPart ++ es), cs₄)
    | some fp =>
      match expPart cs₃ with
      | none => some (String.mk (sign ++ intPart ++ fp), cs₃)
      | some (es, cs₄) => some (String.mk (sign ++ intPart ++ fp ++ es), cs₄)
where
  expPart (cs : List Char) : Option (List Char × List Char) :=
    match cs with
    | e :: rest =>
      if e == 'e' || e == 'E' then
        let (sgn, rest₁) :=
          match rest with
          | '+' :: r => (['+'], r)
          | '-' :: r => (['-'], r)
          | _ => (([] : List Char), rest)
        let (ds, rest₂) := spanDigits rest₁
        if ds.isEmpty then none else some (e :: (sgn ++ ds), rest₂)
      else none
    | [] => none

mutual

def parseJsonValue (fuel : Nat) (cs : List Char) : Option (Json × List Char) :=
  match fuel with
  | 0 => none
  | fuel + 1 =>
    match skipWs cs with
    | 'n' :: 'u' :: 'l' :: 'l' :: rest => some (Json.null, rest)
    | 't' :: 'r' :: 'u' :: 'e' :: rest => some (Json.bool true, rest)
    | 'f' :: 'a' :: 'l' :: 's' :: 'e' :: rest => some (Json.bool false, rest)
    | '"' :: rest =>
      match parseJsonString fuel rest [] with
      | some (s, rest') => some (Json.str s, rest')
      | none => none
    | '[' :: rest =>
      (match skipWs rest with
       | ']' :: rest' => some (Json.arr [], rest')
       | _ => parseJsonElems fuel rest [])
    | '{' :: rest =>
      (match skipWs rest with
       | '}' :: rest' => some (Json.obj [], rest')
       | _ => parseJsonMembers fuel rest [])
    | other =>
      match parseJsonNumber other with
      | some (lexeme, rest) => some (Json.num lexeme, rest)
      | none => none

def parseJsonElems (fuel : Nat) (cs : List Char) (acc : List Json) :
    Option (Json × List Char) :=
  match fuel with
  | 0 => none
  | fuel + 1 =>
    match parseJsonValue fuel cs with
    | none => none
    | some (v, rest) =>
      match skipWs rest with
      | ',' :: rest' => parseJsonElems fuel rest' (v :: acc)
      | ']' :: rest' => some (Json.arr (v :: acc).reverse, rest')
      | _ => none

def parseJsonMembers (fuel : Nat) (cs : List Char) (acc : List (String × Json)) :
    Option (Json × List Char) :=
  match fuel with
  | 0 => none
  | fuel + 1 =>
    match skipWs cs with
    | '"' :: rest =>
      match parseJsonString fuel rest [] with
      | none => none
      | some (key, rest₁) =>
        match skipWs rest₁ with
        | ':' :: rest₂ =>
          match parseJsonValue fuel rest₂ with
          | none => none
          | some (v, rest₃) =>
            match skipWs rest₃ with
            | ',' :: rest₄ => parseJsonMembers fuel rest₄ ((key, v) :: acc)
            | '}' :: rest₄ => some (Json.obj ((key, v) :: acc).reverse, rest₄)
            | _ => none
        | _ => none
    | _ => none

end

/-- Models `json.Unmarshal(data, &m)` for `m : map[string]interface{}`:
the input must be one JSON object followed only by whitespace. -/
def jsonUnmarshalObject (s : String) : Except GoError (List (String × Json)) :=
  let cs := s.data
  match parseJsonValue (2 * cs.length + 4) cs with
  | some (Json.obj fields, rest) =>
    if (skipWs rest).isEmpty then Except.ok fields
    else Except.error (GoError.other "invalid character after top-level value")
  | some _ => Except.error (GoError.other "cannot unmarshal non-object into map")
  | none => Except.error (GoError.other "invalid JSON input")

/-! ## Domain data model (`internal/domain`)

Go strings are Lean strings; `len(s)` on a Go string counts UTF-8 bytes,
so length checks use `golen`.  `time.Time` values and Unix timestamps are
abstract `Int`s.  Go `int` is modelled as `Int` (no claim involves
machine-width overflow). -/

def golen (s : String) : Nat := s.utf8ByteSize

structure Document where
  id : String
  title : String
  content : String
  link : String
  category : String
  metadata : List (String × String)
  createdAt : Int
  updatedAt : Int
deriving Repr, DecidableEq

structure RAGRequest where
  query : String
  userID : String
  sessionID : String
  maxResults : Int
  category : String
  metadata : List (String × String)
deriving Repr, DecidableEq

structure RAGResponse where
  answer : String
  sources : List Document
  query : String
  processingTime : Int
  searchPerformed : Bool
  model : String
  tokensUsed : Int
deriving Repr, DecidableEq

structure ConversationMessage where
  role : String
  content : String
  toolCall : String
  toolID : String
  timestamp : Int
deriving Repr, DecidableEq

structure Tool where
  name : String
  description : String
  parameters : Json
deriving Repr, BEq

structure ToolCall where
  id : String
  name : String
  arguments : String
deriving Repr, DecidableEq

structure LLMResponse where
  content : String
  toolCalls : List ToolCall
  tokensUsed : Int
  model : String
  finishReason : String
deriving Repr, DecidableEq

/-! ## Collaborators and the event trace

The Document Store and LLM Client are collaborator interfaces; the service
only consumes `Search`, `Insert`, `HealthCheck` and `GenerateResponse`,
`HealthCheck`, so oracles for exactly those operations are supplied.  The
oracle is a function of every argument the Go call passes (context
included), so one oracle value represents one deterministic environment
behaviour; quantifying over oracles recovers all environments.  Every
outbound call is also recorded as an `Event` so that theorems can speak
about which calls were made, in which order, and with which context. -/

structure DocumentRepository where
  search : Ctx → String → Int → Except GoError (List Document)
  insert : Ctx → Document → Option GoError
  healthCheck : Ctx → Option GoError

structure LLMClient where
  generateResponse : Ctx → List ConversationMessage → List Tool →
    Except GoError LLMResponse
  healthCheck : Ctx → Option GoError

inductive Event where
  | repoSearch (ctx : Ctx) (query : String) (limit : Int)
  | repoInsert (ctx : Ctx) (doc : Document)
  | repoHealthCheck (ctx : Ctx)
  | llmGenerate (ctx : Ctx) (messages : List ConversationMessage)
      (toolCount : Nat)
  | llmHealthCheck (ctx : Ctx)
deriving Repr, DecidableEq

def Event.isRepoSearch : Event → Bool
  | Event.repoSearch _ _ _ => true
  | _ => false

def Event.isRepoInsert : Event → Bool
  | Event.repoInsert _ _ => true
  | _ => false

def Event.isLLMGenerate : Event → Bool
  | Event.llmGenerate _ _ _ => true
  | _ => false

def Event.isLLMHealthCheck : Event → Bool
  | Event.llmHealthCheck _ => true
  | _ => false

/-- The context argument recorded in an event. -/
def Event.ctx : Event → Ctx
  | Event.repoSearch c _ _ => c
  | Event.repoInsert c _ => c
  | Event.repoHealthCheck c => c
  | Event.llmGenerate c _ _ => c
  | Event.llmHealthCheck c => c

/-! ## The service (`internal/service/rag.go`)

`RAGConfig` and `RAGServiceImpl` mirror the Go structs; the `slog.Logger`
field is omitted (logging has no observable effect on results or
collaborator calls).  Wall-clock reads are modelled by a `now : Int`
parameter used for every `time.Now().Unix()` and an `elapsedMs : Int`
parameter standing for `time.Since(start).Milliseconds()`. -/

structure RAGConfig where
  maxSearchResults : Int
  searchTimeout : Nat
  llmTimeout : Nat
deriving Repr, DecidableEq

structure RAGServiceImpl where
  docRepo : DocumentRepository
  llmClient : LLMClient
  config : RAGConfig

/-- `llm.CreateSearchTool` (infrastructure/llm). -/
def CreateSearchTool : Tool :=
  { name := "search_metadata"
    description := "Search metadata in database or API from a query"
    parameters := Json.obj
      [ ("type", Json.str "object")
      , ("properties", Json.obj
          [ ("query", Json.obj
              [ ("type", Json.str "string")
              , ("description", Json.str "Text to search in metadata") ]) ])
      , ("required", Json.arr [Json.str "query"]) ] }

/-- `llm.ParseToolArguments`: unmarshal the arguments string into a
`map[string]interface{}`, wrapping the decoder's error. -/
def ParseToolArguments (arguments : String) :
    Except GoError (List (String × Json)) :=
  match jsonUnmarshalObject arguments with
  | Except.error e =>
    Except.error (GoError.wrapped "erro ao fazer parse dos argumentos" e)
  | Except.ok args => Except.ok args

/-- JSON escaping of a Go string by `encoding/json` (common escapes). -/
def jsonEscapeChar (c : Char) : List Char :=
  if c = '"' then ['\\', '"']
  else if c = '\\' then ['\\', '\\']
  else if c = '\n' then ['\\', 'n']
  else if c = '\r' then ['\\', 'r']
  else if c = '\t' then ['\\', 't']
  else [c]

def jsonEscape (s : String) : String :=
  String.mk (s.data.flatMap jsonEscapeChar)

def quoteJson (s : String) : String := "\"" ++ jsonEscape s ++ "\""

def commaSep : List String → String
  | [] => ""
  | [x] => x
  | x :: xs => x ++ "," ++ commaSep xs

/-- `json.Marshal` of one `*domain.Document` (struct-tag field order;
time values rendered through their abstract `Int` model). -/
def marshalDocument (d : Document) : String :=
  "\x7b" ++ commaSep
    ([ quoteJson "id" ++ ":" ++ quoteJson d.id
     , quoteJson "title" ++ ":" ++ quoteJson d.title
     , quoteJson "content" ++ ":" ++ quoteJson d.content
     , quoteJson "link" ++ ":" ++ quoteJson d.link
     , quoteJson "category" ++ ":" ++ quoteJson d.category ]
     ++ (if d.metadata.isEmpty then [] else
          [quoteJson "metadata" ++ ":" ++ "\x7b" ++
            commaSep (d.metadata.map
              (fun kv => quoteJson kv.1 ++ ":" ++ quoteJson kv.2)) ++ "\x7d"])
     ++ [ quoteJson "created_at" ++ ":" ++ toString d.createdAt
        , quoteJson "updated_at" ++ ":" ++ toString d.updatedAt ])
  ++ "\x7d"

/-- `json.Marshal` of a `[]*domain.Document` slice; it cannot fail on
these values, so the `resultsJSON = []byte("[]")` fallback in the source
is unreachable. -/
def marshalDocuments (docs : List Document) : String :=
  "[" ++ commaSep (docs.map marshalDocument) ++ "]"

/-- `validateRequest` (rag.go:246).  The Go method mutates `req` in place
(filling the default max-results); the model returns the possible error
together with the request's final state. -/
def validateRequest (cfg : RAGConfig) (req : Option RAGRequest) :
    Option GoError × Option RAGRequest :=
  match req with
  | none =>
    (some (GoError.validation "request" "requisição não pode ser nula"), none)
  | some req =>
    if req.query = "" then (some GoError.queryEmpty, some req)
    else if golen req.query < 3 then (some GoError.queryTooShort, some req)
    else if golen req.query > 1000 then (some GoError.queryTooLong, some req)
    else if req.maxResults ≤ 0 then
      (none, some { req with maxResults := cfg.maxSearchResults })
    else (none, some req)

/-- `validateDocument` (rag.go:271); check order as in the source. -/
def validateDocument (doc : Document) : Option GoError :=
  if doc.title = "" then
    some (GoError.validation "title" "título é obrigatório")
  else if doc.content = "" then
    some (GoError.validation "content" "conteúdo é obrigatório")
  else if golen doc.title > 200 then
    some (GoError.validation "title" "título muito longo (máximo 200 caracteres)")
  else if golen doc.content > 10000 then
    some (GoError.validation "content" "conteúdo muito longo (máximo 10000 caracteres)")
  else none

/-- `SearchDocuments` (rag.go:170): empty-query guard, default limit,
search-timeout child context, wrapped repository error.  Returns the
result together with the trace of collaborator calls it made. -/
def SearchDocuments (s : RAGServiceImpl) (ctx : Ctx) (query : String)
    (limit : Int) : Except GoError (List Document) × List Event :=
  if query = "" then (Except.error GoError.queryEmpty, [])
  else
    let limit := if limit ≤ 0 then s.config.maxSearchResults else limit
    let searchCtx := Ctx.withTimeout ctx s.config.searchTimeout
    let ev := Event.repoSearch searchCtx query limit
    match s.docRepo.search searchCtx query limit with
    | Except.error e =>
      (Except.error (GoError.wrapped "erro na busca de documentos" e), [ev])
    | Except.ok docs => (Except.ok docs, [ev])

/-- State threaded through the tool-call loop of `ProcessQuery`
(rag.go:92-136): the `searchPerformed` flag, the `sources` slice, the
conversation transcript, and the events emitted so far. -/
structure ToolLoopState where
  searchPerformed : Bool
  sources : List Document
  messages : List ConversationMessage
  events : List Event
deriving Repr

/-- One iteration of the `for _, toolCall := range llmResp.ToolCalls` loop
(rag.go:92-136).  Both `continue` paths (argument-parse failure, missing /
non-string `query` field) leave the state unchanged apart from the
already-set flag. -/
def processToolCall (s : RAGServiceImpl) (ctx : Ctx) (now : Int)
    (maxResults : Int) (st : ToolLoopState) (tc : ToolCall) : ToolLoopState :=
  if tc.name = "search_metadata" then
    let st := { st with searchPerformed := true }
    match ParseToolArguments tc.arguments with
    | Except.error _ => st
    | Except.ok args =>
      match jsonLookup args "query" with
      | some (Json.str query) =>
        let (res, evs) := SearchDocuments s ctx query maxResults
        let searchResults :=
          match res with
          | Except.error _ => []
          | Except.ok docs => docs
        { st with
            sources := searchResults
            messages := st.messages ++
              [{ role := "tool"
                 content := marshalDocuments searchResults
                 toolCall := tc.name
                 toolID := tc.id
                 timestamp := now }]
            events := st.events ++ evs }
      | _ => st

  else st

def runToolCalls (s : RAGServiceImpl) (ctx : Ctx) (now : Int)
    (maxResults : Int) (st : ToolLoopState) :
    List ToolCall → ToolLoopState
  | [] => st
  | tc :: tcs =>
    runToolCalls s ctx now maxResults (processToolCall s ctx now maxResults st tc) tcs

/-- The initial transcript built at rag.go:62-68. -/
def initialMessages (query : String) (now : Int) : List ConversationMessage :=
  [{ role := "user", content := query, toolCall := "", toolID := ""
     timestamp := now }]

/-- The assistant message appended at rag.go:86-90. -/
def assistantMessage (content : String) (now : Int) : ConversationMessage :=
  { role := "assistant", content := content, toolCall := "", toolID := ""
    timestamp := now }

/-- The loop state at entry of the tool-call loop: flag unset, no sources,
transcript = user message plus the round-1 assistant message. -/
def toolLoopInit (query : String) (r1content : String) (now : Int) :
    ToolLoopState :=
  { searchPerformed := false
    sources := []
    messages := initialMessages query now ++ [assistantMessage r1content now]
    events := [] }

/-- The loop state after all round-1 tool calls are processed, as a
function of the validated request and the round-1 response. -/
def loopState (s : RAGServiceImpl) (ctx : Ctx) (now : Int)
    (vreq : RAGRequest) (r1 : LLMResponse) : ToolLoopState :=
  runToolCalls s ctx now vreq.maxResults
    (toolLoopInit vreq.query r1.content now) r1.toolCalls

/-- The transcript handed to the round-2 LLM call (rag.go:139), as a
function of the validated request and the round-1 response. -/
def round2Messages (s : RAGServiceImpl) (ctx : Ctx) (now : Int)
    (vreq : RAGRequest) (r1 : LLMResponse) : List ConversationMessage :=
  (loopState s ctx now vreq r1).messages

/-- `ProcessQuery` (rag.go:45): validation, round-1 LLM call with the
search tool declared, the tool-call loop, the round-2 LLM call with no
tools, and response construction.  Returns the Go result pair (modelled
as `Except`) together with the full ordered trace of collaborator calls. -/
def ProcessQuery (s : RAGServiceImpl) (ctx : Ctx) (now : Int)
    (elapsedMs : Int) (req : Option RAGRequest) :
    Except GoError RAGResponse × List Event :=
  match validateRequest s.config req with
  | (some e, _) => (Except.error e, [])
  -- dead branch: validateRequest only returns no error on a non-nil request
  | (none, none) => (Except.error GoError.documentInvalid, [])
  | (none, some req) =>
    let messages := initialMessages req.query now
    let tools := [CreateSearchTool]
    let ev₁ := Event.llmGenerate ctx messages tools.length
    match s.llmClient.generateResponse ctx messages tools with
    | Except.error e =>
      (Except.error (GoError.wrapped "erro ao gerar resposta" e), [ev₁])
    | Except.ok llmResp =>
      if llmResp.toolCalls.length > 0 then
        let st := runToolCalls s ctx now req.maxResults
          (toolLoopInit req.query llmResp.content now) llmResp.toolCalls
        let ev₂ := Event.llmGenerate ctx st.messages 0
        match s.llmClient.generateResponse ctx st.messages [] with
        | Except.error e =>
          (Except.error (GoError.wrapped "erro ao gerar resposta final" e),
            ev₁ :: st.events ++ [ev₂])
        | Except.ok finalResp =>
          (Except.ok
            { answer := finalResp.content
              sources := st.sources
              query := req.query
              processingTime := elapsedMs
              searchPerformed := st.searchPerformed
              model := finalResp.model
              tokensUsed := finalResp.tokensUsed },
            ev₁ :: st.events ++ [ev₂])
      else
        (Except.ok
          { answer := llmResp.content
            sources := []
            query := req.query
            processingTime := elapsedMs
            searchPerformed := false
            model := llmResp.model
            tokensUsed := llmResp.tokensUsed }, [ev₁])

/-- The source-document set one iteration of the tool-call loop records
into `sources` (rag.go:92-118): `none` when the iteration records nothing
(wrong tool name, unparseable arguments, or missing / non-string `query`
field), otherwise the search's result set, empty when the search failed. -/
def recordedResult (s : RAGServiceImpl) (ctx : Ctx) (maxResults : Int)
    (tc : ToolCall) : Option (List Document) :=
  if tc.name = "search_metadata" then
    match ParseToolArguments tc.arguments with
    | Except.error _ => none
    | Except.ok args =>
      match jsonLookup args "query" with
      | some (Json.str query) =>
        some (match (SearchDocuments s ctx query maxResults).1 with
              | Except.error _ => []
              | Except.ok docs => docs)
      | _ => none
  else none

/-- `AddDocument` (rag.go:202): nil guard, validation, insert with a
wrapped error on failure; trace records the insert call. -/
def AddDocument (s : RAGServiceImpl) (ctx : Ctx) (doc : Option Document) :
    Option GoError × List Event :=
  match doc with
  | none => (some GoError.documentInvalid, [])
  | some doc =>
    match validateDocument doc with
    | some e => (some e, [])
    | none =>
      let ev := Event.repoInsert ctx doc
      match s.docRepo.insert ctx doc with
      | some e => (some (GoError.wrapped "erro ao adicionar documento" e), [ev])
      | none => (none, [ev])

/-- `HealthCheck` (rag.go:231): document repository first, then the LLM
client; the first failure is wrapped and returned. -/
def HealthCheck (s : RAGServiceImpl) (ctx : Ctx) :
    Option GoError × List Event :=
  match s.docRepo.healthCheck ctx with
  | some e =>
    (some (GoError.wrapped "repositório indisponível" e), [Event.repoHealthCheck ctx])
  | none =>
    match s.llmClient.healthCheck ctx with
    | some e =>
      (some (GoError.wrapped "cliente LLM indisponível" e),
        [Event.repoHealthCheck ctx, Event.llmHealthCheck ctx])
    | none => (none, [Event.repoHealthCheck ctx, Event.llmHealthCheck ctx])

/-! ## Concrete environments

Fixed collaborator behaviours and inputs used to evaluate the embedded
service on closed runs. -/

def sampleDoc : Document :=
  { id := "doc-1", title := "Go Performance", content := "profiling"
    link := "http://x", category := "golang", metadata := []
    createdAt := 0, updatedAt := 0 }

def cfgW : RAGConfig :=
  { maxSearchResults := 5, searchTimeout := 10000, llmTimeout := 30000 }

def reqW : RAGRequest :=
  { query := "What are the documents related to Golang performance?"
    userID := "user-1", sessionID := "sess-1", maxResults := 5
    category := "", metadata := [] }

def reqNoMax : RAGRequest := { reqW with maxResults := 0 }

def reqEmptyQuery : RAGRequest := { reqW with query := "" }

/-- An LLM client that answers `r1` whenever tools are declared (round 1)
and `r2` on tool-less calls (round 2); healthy probe. -/
def mkLLM (r1 r2 : Except GoError LLMResponse) : LLMClient :=
  { generateResponse := fun _ _ tools => if tools.length > 0 then r1 else r2
    healthCheck := fun _ => none }

def argsA : String := "\x7b\"query\":\"a\"\x7d"

def argsB : String := "\x7b\"query\":\"b\"\x7d"

def argsGolang : String := "\x7b\"query\":\"golang\"\x7d"

def argsBad : String := "not json"

def respNoTools : LLMResponse :=
  { content := "direct answer", toolCalls := [], tokensUsed := 7
    model := "gpt-4", finishReason := "stop" }

def respOtherTool : LLMResponse :=
  { content := ""
    toolCalls := [{ id := "call-1", name := "other_tool", arguments := "\x7b\x7d" }]
    tokensUsed := 3, model := "gpt-4", finishReason := "tool_calls" }

def respTwoCalls : LLMResponse :=
  { content := ""
    toolCalls :=
      [ { id := "call-1", name := "search_metadata", arguments := argsA }
      , { id := "call-2", name := "search_metadata", arguments := argsB } ]
    tokensUsed := 3, model := "gpt-4", finishReason := "tool_calls" }

def respOneCall : LLMResponse :=
  { content := ""
    toolCalls := [{ id := "call-1", name := "search_metadata", arguments := argsGolang }]
    tokensUsed := 3, model := "gpt-4", finishReason := "tool_calls" }

def respBadArgs : LLMResponse :=
  { content := ""
    toolCalls := [{ id := "call-1", name := "search_metadata", arguments := argsBad }]
    tokensUsed := 3, model := "gpt-4", finishReason := "tool_calls" }

def respFinal : LLMResponse :=
  { content := "final answer", toolCalls := [], tokensUsed := 9
    model := "gpt-4", finishReason := "stop" }

/-- Store whose search succeeds on query `"a"` and times out otherwise. -/
def repoAB : DocumentRepository :=
  { search := fun _ q _ =>
      if q = "a" then Except.ok [sampleDoc] else Except.error GoError.repoTimeout
    insert := fun _ _ => none
    healthCheck := fun _ => none }

def repoDocs : DocumentRepository :=
  { search := fun _ _ _ => Except.ok [sampleDoc]
    insert := fun _ _ => none
    healthCheck := fun _ => none }

def repoFailing : DocumentRepository :=
  { search := fun _ _ _ => Except.error GoError.repoTimeout
    insert := fun _ _ => none
    healthCheck := fun _ => none }

def repoDown : DocumentRepository :=
  { search := fun _ _ _ => Except.error GoError.repoUnavailable
    insert := fun _ _ => some GoError.repoUnavailable
    healthCheck := fun _ => some GoError.repoUnavailable }

def svcHealthy : RAGServiceImpl :=
  { docRepo := repoDocs
    llmClient := mkLLM (Except.ok respNoTools) (Except.ok respFinal)
    config := cfgW }

def svcDown : RAGServiceImpl :=
  { docRepo := repoDown
    llmClient := mkLLM (Except.ok respNoTools) (Except.ok respFinal)
    config := cfgW }

def svcOtherTool : RAGServiceImpl :=
  { docRepo := repoDocs
    llmClient := mkLLM (Except.ok respOtherTool) (Except.ok respFinal)
    config := cfgW }

def svcOneCall : RAGServiceImpl :=
  { docRepo := repoDocs
    llmClient := mkLLM (Except.ok respOneCall) (Except.ok respFinal)
    config := cfgW }

def svcTwoCalls : RAGServiceImpl :=
  { docRepo := repoAB
    llmClient := mkLLM (Except.ok respTwoCalls) (Except.ok respFinal)
    config := cfgW }

def svcSearchFails : RAGServiceImpl :=
  { docRepo := repoFailing
    llmClient := mkLLM (Except.ok respOneCall) (Except.ok respFinal)
    config := cfgW }

def svcRound2Fails : RAGServiceImpl :=
  { docRepo := repoDocs
    llmClient := mkLLM (Except.ok respOneCall) (Except.error GoError.llmTimeout)
    config := cfgW }

def svcBadArgs : RAGServiceImpl :=
  { docRepo := repoDocs
    llmClient := mkLLM (Except.ok respBadArgs) (Except.ok respFinal)
    config := cfgW }

def docLongTitle : Document :=
  { id := "", title := String.mk (List.replicate 250 'a')
    content := "conteúdo válido", link := "", category := "", metadata := []
    createdAt := 0, updatedAt := 0 }

def reqAB : RAGRequest := { reqW with query := "ab" }

def svcRound1Fails : RAGServiceImpl :=
  { docRepo := repoDocs
    llmClient := mkLLM (Except.error GoError.llmUnavailable) (Except.ok respFinal)
    config := cfgW }

/-! ## Lemmas about the tool-call loop -/

theorem processToolCall_searchPerformed (s : RAGServiceImpl) (ctx : Ctx)
    (now : Int) (m : Int) (st : ToolLoopState) (tc : ToolCall) :
    (processToolCall s ctx now m st tc).searchPerformed =
      (st.searchPerformed || tc.name == "search_metadata") := by
  unfold processToolCall
  by_cases h : tc.name = "search_metadata"
  · cases hp : ParseToolArguments tc.arguments with
    | error e => simp [h, hp]
    | ok args =>
      cases hq : jsonLookup args "query" with
      | none => simp [h, hp, hq]
      | some j => cases j <;> simp [h, hp, hq]
  · simp [h]

theorem processToolCall_sources (s : RAGServiceImpl) (ctx : Ctx)
    (now : Int) (m : Int) (st : ToolLoopState) (tc : ToolCall) :
    (processToolCall s ctx now m st tc).sources =
      (recordedResult s ctx m tc).getD st.sources := by
  unfold processToolCall recordedResult
  by_cases h : tc.name = "search_metadata"
  · cases hp : ParseToolArguments tc.arguments with
    | error e => simp [h, hp]
    | ok args =>
      cases hq : jsonLookup args "query" with
      | none => simp [h, hp, hq]
      | some j => cases j <;> simp [h, hp, hq]
  · simp [h]

theorem runToolCalls_searchPerformed (s : RAGServiceImpl) (ctx : Ctx)
    (now : Int) (m : Int) (tcs : List ToolCall) (st : ToolLoopState) :
    (runToolCalls s ctx now m st tcs).searchPerformed =
      (st.searchPerformed || tcs.any (fun tc => tc.name == "search_metadata")) := by
  induction tcs generalizing st with
  | nil => simp [runToolCalls]
  | cons tc tcs ih =>
    rw [runToolCalls, ih, processToolCall_searchPerformed]
    simp [Bool.or_assoc]

theorem getLast?_getD_cons {α : Type} (r x : α) (l : List α) :
    ((r :: l).getLast?).getD x = (l.getLast?).getD r := by
  induction l generalizing r x with
  | nil => rfl
  | cons y l ih =>
    calc ((r :: y :: l).getLast?).getD x
        = ((y :: l).getLast?).getD x := by rw [List.getLast?_cons_cons]
      _ = (l.getLast?).getD y := ih y x
      _ = ((y :: l).getLast?).getD r := (ih y r).symm

theorem runToolCalls_sources (s : RAGServiceImpl) (ctx : Ctx)
    (now : Int) (m : Int) (tcs : List ToolCall) (st : ToolLoopState) :
    (runToolCalls s ctx now m st tcs).sources =
      ((tcs.filterMap (recordedResult s ctx m)).getLast?).getD st.sources := by
  induction tcs generalizing st with
  | nil => simp [runToolCalls]
  | cons tc tcs ih =>
    rw [runToolCalls, ih, List.filterMap_cons]
    cases h : recordedResult s ctx m tc with
    | none => rw [processToolCall_sources, h]; rfl
    | some r =>
      rw [processToolCall_sources, h, getLast?_getD_cons]
      rfl

theorem SearchDocuments_events (s : RAGServiceImpl) (ctx : Ctx)
    (q : String) (l : Int) (e : Event)
    (he : e ∈ (SearchDocuments s ctx q l).2) :
    e.isRepoSearch = true ∧ e.ctx = Ctx.withTimeout ctx s.config.searchTimeout := by
  unfold SearchDocuments at he
  by_cases hq : q = ""
  · simp [hq] at he
  · simp only [hq, if_false, ite_false] at he
    rcases hres : s.docRepo.search (Ctx.withTimeout ctx s.config.searchTimeout) q
        (if l ≤ 0 then s.config.maxSearchResults else l) with e' | docs <;>
      rw [hres] at he <;>
      simp at he <;>
      subst he <;>
      exact ⟨rfl, rfl⟩

theorem processToolCall_events_mem (s : RAGServiceImpl) (ctx : Ctx)
    (now : Int) (m : Int) (st : ToolLoopState) (tc : ToolCall) (e : Event)
    (he : e ∈ (processToolCall s ctx now m st tc).events) :
    e ∈ st.events ∨
      (e.isRepoSearch = true ∧ e.ctx = Ctx.withTimeout ctx s.config.searchTimeout) := by
  unfold processToolCall at he
  by_cases h : tc.name = "search_metadata"
  · simp only [h, if_true, ite_true] at he
    cases hp : ParseToolArguments tc.arguments with
    | error err => rw [hp] at he; exact Or.inl he
    | ok args =>
      cases hq : jsonLookup args "query" with
      | none => simp only [hp, hq] at he; exact Or.inl he
      | some j =>
        cases j with
        | str query =>
          simp only [hp, hq, List.mem_append] at he
          rcases he with he | he
          · exact Or.inl he
          · exact Or.inr (SearchDocuments_events s ctx query m e he)
        | null => simp only [hp, hq] at he; exact Or.inl he
        | bool b => simp only [hp, hq] at he; exact Or.inl he
        | num lx => simp only [hp, hq] at he; exact Or.inl he
        | arr xs => simp only [hp, hq] at he; exact Or.inl he
        | obj fs => simp only [hp, hq] at he; exact Or.inl he
  · simp only [h, if_false, ite_false] at he
    exact Or.inl he

theorem runToolCalls_events_mem (s : RAGServiceImpl) (ctx : Ctx)
    (now : Int) (m : Int) (tcs : List ToolCall) (st : ToolLoopState) (e : Event)
    (he : e ∈ (runToolCalls s ctx now m st tcs).events) :
    e ∈ st.events ∨
      (e.isRepoSearch = true ∧ e.ctx = Ctx.withTimeout ctx s.config.searchTimeout) := by
  induction tcs generalizing st with
  | nil => exact Or.inl he
  | cons tc tcs ih =>
    rw [runToolCalls] at he
    rcases ih _ he with h' | h'
    · exact processToolCall_events_mem s ctx now m st tc e h'
    · exact Or.inr h'

/-! ## Reduction of `ProcessQuery` under round-1 hypotheses -/

theorem ProcessQuery_no_toolcalls (s : RAGServiceImpl) (ctx : Ctx)
    (now elapsedMs : Int) (req vreq : RAGRequest) (r1 : LLMResponse)
    (hval : validateRequest s.config (some req) = (none, some vreq))
    (h1 : s.llmClient.generateResponse ctx (initialMessages vreq.query now)
      [CreateSearchTool] = Except.ok r1)
    (h0 : r1.toolCalls = []) :
    ProcessQuery s ctx now elapsedMs (some req) =
      (Except.ok
        { answer := r1.content, sources := [], query := vreq.query
          processingTime := elapsedMs, searchPerformed := false
          model := r1.model, tokensUsed := r1.tokensUsed },
       [Event.llmGenerate ctx (initialMessages vreq.query now) 1]) := by
  unfold ProcessQuery
  rw [hval]
  simp only [h1, h0, List.length_nil, gt_iff_lt, lt_self_iff_false, if_false]
  rfl

theorem ProcessQuery_with_toolcalls (s : RAGServiceImpl) (ctx : Ctx)
    (now elapsedMs : Int) (req vreq : RAGRequest) (r1 : LLMResponse)
    (hval : validateRequest s.config (some req) = (none, some vreq))
    (h1 : s.llmClient.generateResponse ctx (initialMessages vreq.query now)
      [CreateSearchTool] = Except.ok r1)
    (h0 : r1.toolCalls ≠ []) :
    ProcessQuery s ctx now elapsedMs (some req) =
      (match s.llmClient.generateResponse ctx (round2Messages s ctx now vreq r1) [] with
       | Except.error e =>
         (Except.error (GoError.wrapped "erro ao gerar resposta final" e),
          Event.llmGenerate ctx (initialMessages vreq.query now) 1 ::
            (loopState s ctx now vreq r1).events ++
            [Event.llmGenerate ctx (round2Messages s ctx now vreq r1) 0])
       | Except.ok finalResp =>
         (Except.ok
           { answer := finalResp.content
             sources := (loopState s ctx now vreq r1).sources
             query := vreq.query
             processingTime := elapsedMs
             searchPerformed := (loopState s ctx now vreq r1).searchPerformed
             model := finalResp.model
             tokensUsed := finalResp.tokensUsed },
          Event.llmGenerate ctx (initialMessages vreq.query now) 1 ::
            (loopState s ctx now vreq r1).events ++
            [Event.llmGenerate ctx (round2Messages s ctx now vreq r1) 0])) := by
  have hlen : r1.toolCalls.length > 0 := List.length_pos.mpr h0
  unfold ProcessQuery
  rw [hval]
  simp only [h1, hlen, if_true, ite_true, List.length_cons, List.length_nil]
  rfl

theorem ProcessQuery_invalid (s : RAGServiceImpl) (ctx : Ctx)
    (now elapsedMs : Int) (req : Option RAGRequest) (err : GoError)
    (hval : (validateRequest s.config req).1 = some err) :
    ProcessQuery s ctx now elapsedMs req = (Except.error err, []) := by
  unfold ProcessQuery
  rcases h : validateRequest s.config req with ⟨err?, vreq?⟩
  rw [h] at hval
  dsimp only at hval
  subst hval
  rfl

theorem ProcessQuery_round1_error (s : RAGServiceImpl) (ctx : Ctx)
    (now elapsedMs : Int) (req vreq : RAGRequest) (e1 : GoError)
    (hval : validateRequest s.config (some req) = (none, some vreq))
    (h1 : s.llmClient.generateResponse ctx (initialMessages vreq.query now)
      [CreateSearchTool] = Except.error e1) :
    ProcessQuery s ctx now elapsedMs (some req) =
      (Except.error (GoError.wrapped "erro ao gerar resposta" e1),
       [Event.llmGenerate ctx (initialMessages vreq.query now) 1]) := by
  unfold ProcessQuery
  rw [hval]
  simp only [h1]
  rfl

theorem validateRequest_cases (cfg : RAGConfig) (req : Option RAGRequest) :
    (∃ err, (validateRequest cfg req).1 = some err) ∨
    (∃ r vreq, req = some r ∧ validateRequest cfg req = (none, some vreq)) := by
  cases req with
  | none => exact Or.inl ⟨_, rfl⟩
  | some r =>
    unfold validateRequest
    by_cases h1 : r.query = ""
    · exact Or.inl ⟨GoError.queryEmpty, by simp [h1]⟩
    · by_cases h2 : golen r.query < 3
      · exact Or.inl ⟨GoError.queryTooShort, by simp [h1, h2]⟩
      · by_cases h3 : golen r.query > 1000
        · exact Or.inl ⟨GoError.queryTooLong, by simp [h1, h2, h3]⟩
        · by_cases h4 : r.maxResults ≤ 0
          · exact Or.inr ⟨r, { r with maxResults := cfg.maxSearchResults },
              rfl, by simp [h1, h2, h3, h4]⟩
          · exact Or.inr ⟨r, r, rfl, by simp [h1, h2, h3, h4]⟩

/-- Every trace `ProcessQuery` can produce: empty (validation failure),
a single round-1 LLM call, or round-1 call, loop events, round-2 call. -/
theorem ProcessQuery_trace_cases (s : RAGServiceImpl) (ctx : Ctx)
    (now elapsedMs : Int) (req : Option RAGRequest) :
    (ProcessQuery s ctx now elapsedMs req).2 = [] ∨
    (∃ q, (ProcessQuery s ctx now elapsedMs req).2 =
      [Event.llmGenerate ctx (initialMessages q now) 1]) ∨
    (∃ vreq r1, (ProcessQuery s ctx now elapsedMs req).2 =
      Event.llmGenerate ctx (initialMessages vreq.query now) 1 ::
        (loopState s ctx now vreq r1).events ++
        [Event.llmGenerate ctx (round2Messages s ctx now vreq r1) 0]) := by
  rcases validateRequest_cases s.config req with ⟨err, hval⟩ | ⟨r, vreq, hreq, hval⟩
  · left
    rw [ProcessQuery_invalid s ctx now elapsedMs req err hval]
  · subst hreq
    cases h1 : s.llmClient.generateResponse ctx (initialMessages vreq.query now)
        [CreateSearchTool] with
    | error e1 =>
      right; left
      exact ⟨vreq.query,
        by rw [ProcessQuery_round1_error s ctx now elapsedMs r vreq e1 hval h1]⟩
    | ok r1 =>
      by_cases h0 : r1.toolCalls = []
      · right; left
        exact ⟨vreq.query,
          by rw [ProcessQuery_no_toolcalls s ctx now elapsedMs r vreq r1 hval h1 h0]⟩
      · right; right
        refine ⟨vreq, r1, ?_⟩
        rw [ProcessQuery_with_toolcalls s ctx now elapsedMs r vreq r1 hval h1 h0]
        cases h2 : s.llmClient.generateResponse ctx
            (round2Messages s ctx now vreq r1) [] with
        | error e2 => rfl
        | ok fr => rfl

/-! ## Claim C1 -/

/-- Claim C1 (amended): for every request that passes validation, if the
round-1 LLM response contains zero tool calls, `ProcessQuery` returns a
response with `search_performed = false`, an empty source list, and the
round-1 content as the final answer (and no further collaborator call is
made); and whenever the round-1 response contains at least one tool call
*named `search_metadata`*, any successfully returned response has
`search_performed = true`. -/
theorem C1_theorem (s : RAGServiceImpl) (ctx : Ctx) (now elapsedMs : Int)
    (req vreq : RAGRequest) (r1 : LLMResponse)
    (hval : validateRequest s.config (some req) = (none, some vreq))
    (h1 : s.llmClient.generateResponse ctx (initialMessages vreq.query now)
      [CreateSearchTool] = Except.ok r1) :
    (r1.toolCalls = [] →
      ProcessQuery s ctx now elapsedMs (some req) =
        (Except.ok
          { answer := r1.content, sources := [], query := vreq.query
            processingTime := elapsedMs, searchPerformed := false
            model := r1.model, tokensUsed := r1.tokensUsed },
         [Event.llmGenerate ctx (initialMessages vreq.query now) 1])) ∧
    ((∃ tc ∈ r1.toolCalls, tc.name = "search_metadata") →
      ∀ resp evs,
        ProcessQuery s ctx now elapsedMs (some req) = (Except.ok resp, evs) →
        resp.searchPerformed = true) := by
  constructor
  · intro h0
    exact ProcessQuery_no_toolcalls s ctx now elapsedMs req vreq r1 hval h1 h0
  · rintro ⟨tc, htc, hname⟩ resp evs hok
    have h0 : r1.toolCalls ≠ [] := List.ne_nil_of_mem htc
    rw [ProcessQuery_with_toolcalls s ctx now elapsedMs req vreq r1 hval h1 h0] at hok
    have hflag : (loopState s ctx now vreq r1).searchPerformed = true := by
      unfold loopState
      rw [runToolCalls_searchPerformed]
      simp only [toolLoopInit, Bool.false_or]
      exact List.any_eq_true.mpr ⟨tc, htc, by simp [hname]⟩
    cases h2 : s.llmClient.generateResponse ctx (round2Messages s ctx now vreq r1) [] with
    | error e => rw [h2] at hok; simp at hok
    | ok fr =>
      rw [h2] at hok
      simp only [Prod.mk.injEq, Except.ok.injEq] at hok
      obtain ⟨hresp, -⟩ := hok
      subst hresp
      exact hflag

/-- Claim C1, as frozen, is false on the code: a round-1 response whose
only tool call is named `other_tool` (not `search_metadata`) still yields
a successful response with `search_performed = false`. -/
theorem C1_counterexample :
    (validateRequest svcOtherTool.config (some reqW)).1 = none ∧
    svcOtherTool.llmClient.generateResponse Ctx.root
      (initialMessages reqW.query 0) [CreateSearchTool] = Except.ok respOtherTool ∧
    respOtherTool.toolCalls.length = 1 ∧
    (ProcessQuery svcOtherTool Ctx.root 0 1 (some reqW)).1 =
      Except.ok
        { answer := "final answer", sources := [], query := reqW.query
          processingTime := 1, searchPerformed := false, model := "gpt-4"
          tokensUsed := 9 } :=
  ⟨rfl, rfl, rfl, rfl⟩

/-- Witness for C1: a concrete run with zero round-1 tool calls. -/
theorem C1_witness :
    ProcessQuery svcHealthy Ctx.root 0 1 (some reqW) =
      (Except.ok
        { answer := "direct answer", sources := [], query := reqW.query
          processingTime := 1, searchPerformed := false, model := "gpt-4"
          tokensUsed := 7 },
       [Event.llmGenerate Ctx.root (initialMessages reqW.query 0) 1]) :=
  (C1_theorem svcHealthy Ctx.root 0 1 reqW reqW respNoTools (by rfl) (by rfl)).1 rfl

/-! ## Claim C2 -/

/-- Claim C2 (amended): in every `ProcessQuery` execution, each retrieval
is invoked under its own narrower search-timeout context (default 10s)
derived from the parent context, but both LLM generate-response rounds are
invoked directly with the parent context — the configured LLM timeout is
not applied to either round. -/
theorem C2_theorem (s : RAGServiceImpl) (ctx : Ctx) (now elapsedMs : Int)
    (req : Option RAGRequest) (e : Event)
    (he : e ∈ (ProcessQuery s ctx now elapsedMs req).2) :
    (e.isRepoSearch = true → e.ctx = Ctx.withTimeout ctx s.config.searchTimeout) ∧
    (e.isLLMGenerate = true → e.ctx = ctx) := by
  rcases ProcessQuery_trace_cases s ctx now elapsedMs req with h | ⟨q, h⟩ | ⟨vreq, r1, h⟩
  · rw [h] at he; cases he
  · rw [h] at he
    simp only [List.mem_singleton] at he
    subst he
    exact ⟨fun hh => absurd hh Bool.false_ne_true, fun _ => rfl⟩
  · rw [h] at he
    simp only [List.cons_append, List.mem_cons, List.mem_append,
      List.mem_singleton] at he
    rcases he with he | he | he | he
    · subst he; exact ⟨fun hh => absurd hh Bool.false_ne_true, fun _ => rfl⟩
    · rcases runToolCalls_events_mem s ctx now vreq.maxResults r1.toolCalls
          (toolLoopInit vreq.query r1.content now) e he with h' | ⟨h1', h2'⟩
      · cases h'
      · refine ⟨fun _ => h2', fun hh => ?_⟩
        exfalso
        cases e <;> simp [Event.isRepoSearch, Event.isLLMGenerate] at h1' hh
    · subst he; exact ⟨fun hh => absurd hh Bool.false_ne_true, fun _ => rfl⟩
    · cases he

/-- Claim C2, as frozen, is false on the code: with the LLM timeout
configured to 30000, a run performing both LLM rounds passes the parent
context itself (`Ctx.root`) to each round; only the retrieval gets a
timeout-derived child context, and it uses the search timeout. -/
theorem C2_counterexample :
    svcOneCall.config.llmTimeout = 30000 ∧
    ((ProcessQuery svcOneCall Ctx.root 0 1 (some reqW)).2.map Event.ctx) =
      [Ctx.root, Ctx.withTimeout Ctx.root 10000, Ctx.root] ∧
    ((ProcessQuery svcOneCall Ctx.root 0 1 (some reqW)).2.map Event.isLLMGenerate) =
      [true, false, true] ∧
    Ctx.root ≠ Ctx.withTimeout Ctx.root 30000 :=
  ⟨rfl, rfl, rfl, by decide⟩

/-- Witness for C2: in the concrete one-tool-call run, the recorded
retrieval event carries the search-timeout child of the parent context. -/
theorem C2_witness :
    (Event.repoSearch (Ctx.withTimeout Ctx.root 10000) "golang" 5).ctx =
      Ctx.withTimeout Ctx.root svcOneCall.config.searchTimeout :=
  (C2_theorem svcOneCall Ctx.root 0 1 (some reqW)
    (Event.repoSearch (Ctx.withTimeout Ctx.root 10000) "golang" 5)
    (by decide)).1 (by decide)

/-! ## Claim C3 -/

/-- Claim C3 (amended): when the round-1 response contains tool calls, the
returned response's source list equals the result set *recorded* by the
last `search_metadata` tool call whose arguments parse as a JSON object
with a string `query` field — where a call whose search fails records an
empty result set, so a late failing call erases earlier successful results;
results never accumulate across calls. -/
theorem C3_theorem (s : RAGServiceImpl) (ctx : Ctx) (now elapsedMs : Int)
    (req vreq : RAGRequest) (r1 : LLMResponse)
    (hval : validateRequest s.config (some req) = (none, some vreq))
    (h1 : s.llmClient.generateResponse ctx (initialMessages vreq.query now)
      [CreateSearchTool] = Except.ok r1)
    (h0 : r1.toolCalls ≠ [])
    (resp : RAGResponse) (evs : List Event)
    (hok : ProcessQuery s ctx now elapsedMs (some req) = (Except.ok resp, evs)) :
    resp.sources =
      ((r1.toolCalls.filterMap
        (recordedResult s ctx vreq.maxResults)).getLast?).getD [] := by
  rw [ProcessQuery_with_toolcalls s ctx now elapsedMs req vreq r1 hval h1 h0] at hok
  cases h2 : s.llmClient.generateResponse ctx (round2Messages s ctx now vreq r1) [] with
  | error e => rw [h2] at hok; simp at hok
  | ok fr =>
    rw [h2] at hok
    simp only [Prod.mk.injEq, Except.ok.injEq] at hok
    obtain ⟨hresp, -⟩ := hok
    subst hresp
    show (loopState s ctx now vreq r1).sources = _
    unfold loopState
    rw [runToolCalls_sources]
    rfl

/-- Claim C3, as frozen, is false on the code: with two `search_metadata`
calls where the first search succeeds with one document and the second
search fails, the final source list is empty — not the result set of the
last *successful* call. -/
theorem C3_counterexample :
    repoAB.search (Ctx.withTimeout Ctx.root 10000) "a" 5 = Except.ok [sampleDoc] ∧
    repoAB.search (Ctx.withTimeout Ctx.root 10000) "b" 5 =
      Except.error GoError.repoTimeout ∧
    respTwoCalls.toolCalls.length = 2 ∧
    (ProcessQuery svcTwoCalls Ctx.root 0 1 (some reqW)).1 =
      Except.ok
        { answer := "final answer", sources := [], query := reqW.query
          processingTime := 1, searchPerformed := true, model := "gpt-4"
          tokensUsed := 9 } ∧
    ([] : List Document) ≠ [sampleDoc] :=
  ⟨rfl, rfl, rfl, rfl, by decide⟩

/-- Witness for C3: the two-call run instantiates the amended statement. -/
theorem C3_witness :
    ({ answer := "final answer", sources := [], query := reqW.query
       processingTime := 1, searchPerformed := true, model := "gpt-4"
       tokensUsed := 9 } : RAGResponse).sources =
      ((respTwoCalls.toolCalls.filterMap
        (recordedResult svcTwoCalls Ctx.root 5)).getLast?).getD [] :=
  C3_theorem svcTwoCalls Ctx.root 0 1 reqW reqW respTwoCalls (by rfl) (by rfl)
    (by decide) _ (ProcessQuery svcTwoCalls Ctx.root 0 1 (some reqW)).2 (by rfl)

/-! ## Claim C4 -/

theorem SearchDocuments_error_of_repo_error (s : RAGServiceImpl) (ctx : Ctx)
    (q : String) (l : Int)
    (hfail : ∀ c q' l', ∃ er, s.docRepo.search c q' l' = Except.error er) :
    ∃ er, (SearchDocuments s ctx q l).1 = Except.error er := by
  unfold SearchDocuments
  by_cases hq : q = ""
  · exact ⟨GoError.queryEmpty, by simp [hq]⟩
  · obtain ⟨er, hre⟩ := hfail (Ctx.withTimeout ctx s.config.searchTimeout) q
      (if l ≤ 0 then s.config.maxSearchResults else l)
    exact ⟨GoError.wrapped "erro na busca de documentos" er, by simp [hq, hre]⟩

theorem recordedResult_empty_of_repo_error (s : RAGServiceImpl) (ctx : Ctx)
    (m : Int) (tc : ToolCall) (r : List Document)
    (hfail : ∀ c q' l', ∃ er, s.docRepo.search c q' l' = Except.error er)
    (hr : recordedResult s ctx m tc = some r) : r = [] := by
  unfold recordedResult at hr
  by_cases h : tc.name = "search_metadata"
  · rw [if_pos h] at hr
    cases hp : ParseToolArguments tc.arguments with
    | error e => rw [hp] at hr; cases hr
    | ok args =>
      cases hq : jsonLookup args "query" with
      | none => simp only [hp, hq] at hr; cases hr
      | some j =>
        cases j with
        | str query =>
          obtain ⟨er, he⟩ := SearchDocuments_error_of_repo_error s ctx query m hfail
          simp only [hp, hq, he, Option.some.injEq] at hr
          exact hr.symm
        | null => simp only [hp, hq] at hr; cases hr
        | bool b => simp only [hp, hq] at hr; cases hr
        | num lx => simp only [hp, hq] at hr; cases hr
        | arr xs => simp only [hp, hq] at hr; cases hr
        | obj fs => simp only [hp, hq] at hr; cases hr
  · rw [if_neg h] at hr; cases hr

/-- Claim C4: for every request that passes validation whose round-1 LLM
response contains a `search_metadata` tool call, if the Document Store's
search always fails, `ProcessQuery` (with the round-2 LLM call succeeding)
still returns successfully with `search_performed = true` and an empty
source list — a retrieval failure never aborts the query. -/
theorem C4_theorem (s : RAGServiceImpl) (ctx : Ctx) (now elapsedMs : Int)
    (req vreq : RAGRequest) (r1 r2 : LLMResponse)
    (hval : validateRequest s.config (some req) = (none, some vreq))
    (h1 : s.llmClient.generateResponse ctx (initialMessages vreq.query now)
      [CreateSearchTool] = Except.ok r1)
    (hsm : ∃ tc ∈ r1.toolCalls, tc.name = "search_metadata")
    (hfail : ∀ c q' l', ∃ er, s.docRepo.search c q' l' = Except.error er)
    (h2 : s.llmClient.generateResponse ctx (round2Messages s ctx now vreq r1) []
      = Except.ok r2) :
    (ProcessQuery s ctx now elapsedMs (some req)).1 =
      Except.ok
        { answer := r2.content, sources := [], query := vreq.query
          processingTime := elapsedMs, searchPerformed := true
          model := r2.model, tokensUsed := r2.tokensUsed } := by
  obtain ⟨tc, htc, hname⟩ := hsm
  have h0 : r1.toolCalls ≠ [] := List.ne_nil_of_mem htc
  rw [ProcessQuery_with_toolcalls s ctx now elapsedMs req vreq r1 hval h1 h0, h2]
  have hflag : (loopState s ctx now vreq r1).searchPerformed = true := by
    unfold loopState
    rw [runToolCalls_searchPerformed]
    simp only [toolLoopInit, Bool.false_or]
    exact List.any_eq_true.mpr ⟨tc, htc, by simp [hname]⟩
  have hsrc : (loopState s ctx now vreq r1).sources = [] := by
    unfold loopState
    rw [runToolCalls_sources]
    cases hlast : (r1.toolCalls.filterMap
        (recordedResult s ctx vreq.maxResults)).getLast? with
    | none => rfl
    | some r =>
      obtain ⟨hne, hr⟩ := List.mem_getLast?_eq_getLast (Option.mem_def.mpr hlast)
      have hmem : r ∈ r1.toolCalls.filterMap (recordedResult s ctx vreq.maxResults) := by
        rw [hr]; exact List.getLast_mem hne
      obtain ⟨tc', -, htc'⟩ := List.mem_filterMap.mp hmem
      have : r = [] :=
        recordedResult_empty_of_repo_error s ctx vreq.maxResults tc' r hfail htc'
      simp [this]
  simp only [hflag, hsrc]

/-- Witness for C4: concrete run whose only search times out; the call
still succeeds with the flag set and no sources. -/
theorem C4_witness :
    (ProcessQuery svcSearchFails Ctx.root 0 1 (some reqW)).1 =
      Except.ok
        { answer := "final answer", sources := [], query := reqW.query
          processingTime := 1, searchPerformed := true, model := "gpt-4"
          tokensUsed := 9 } :=
  C4_theorem svcSearchFails Ctx.root 0 1 reqW reqW respOneCall respFinal
    (by rfl) (by rfl)
    ⟨{ id := "call-1", name := "search_metadata", arguments := argsGolang },
      by decide, rfl⟩
    (fun _ _ _ => ⟨GoError.repoTimeout, rfl⟩) (by rfl)

/-! ## Claim C5 -/

/-- Claim C5 (amended): for every request whose query has UTF-8 byte
length below 3, `ProcessQuery` returns a validation error before any
collaborator call (the trace is empty): `QueryTooShort` when the query is
non-empty, and `QueryEmpty` when the query is the empty string. -/
theorem C5_theorem (s : RAGServiceImpl) (ctx : Ctx) (now elapsedMs : Int)
    (req : RAGRequest) (hshort : golen req.query < 3) :
    (req.query ≠ "" →
      ProcessQuery s ctx now elapsedMs (some req) =
        (Except.error GoError.queryTooShort, [])) ∧
    (req.query = "" →
      ProcessQuery s ctx now elapsedMs (some req) =
        (Except.error GoError.queryEmpty, [])) := by
  constructor
  · intro hne
    apply ProcessQuery_invalid
    simp [validateRequest, hne, hshort]
  · intro he
    apply ProcessQuery_invalid
    simp [validateRequest, he]

/-- Claim C5, as frozen, is false on the code at the empty query (length
0 < 3): the error kind is `QueryEmpty`, not `QueryTooShort` (still with
zero collaborator calls). -/
theorem C5_counterexample :
    golen reqEmptyQuery.query < 3 ∧
    ProcessQuery svcHealthy Ctx.root 0 1 (some reqEmptyQuery) =
      (Except.error GoError.queryEmpty, []) ∧
    GoError.queryEmpty ≠ GoError.queryTooShort :=
  ⟨by decide, rfl, by decide⟩

/-- Witness for C5: the two-byte query `"ab"` yields `QueryTooShort` and
an empty trace. -/
theorem C5_witness :
    ProcessQuery svcHealthy Ctx.root 0 1 (some reqAB) =
      (Except.error GoError.queryTooShort, []) :=
  (C5_theorem svcHealthy Ctx.root 0 1 reqAB (by decide)).1 (by decide)

/-! ## Claim C6 -/

/-- Claim C6: a failure of either LLM round aborts `ProcessQuery` with a
wrapped error and no Query Response is constructed: a round-1 failure
yields the wrapped round-1 error after a single collaborator call, and a
round-2 failure (round 1 having produced tool calls) yields the wrapped
round-2 error. -/
theorem C6_theorem (s : RAGServiceImpl) (ctx : Ctx) (now elapsedMs : Int)
    (req vreq : RAGRequest) (e1 e2 : GoError) (r1 : LLMResponse)
    (hval : validateRequest s.config (some req) = (none, some vreq)) :
    ((s.llmClient.generateResponse ctx (initialMessages vreq.query now)
        [CreateSearchTool] = Except.error e1) →
      ProcessQuery s ctx now elapsedMs (some req) =
        (Except.error (GoError.wrapped "erro ao gerar resposta" e1),
         [Event.llmGenerate ctx (initialMessages vreq.query now) 1])) ∧
    ((s.llmClient.generateResponse ctx (initialMessages vreq.query now)
        [CreateSearchTool] = Except.ok r1) → r1.toolCalls ≠ [] →
      (s.llmClient.generateResponse ctx (round2Messages s ctx now vreq r1) []
        = Except.error e2) →
      (ProcessQuery s ctx now elapsedMs (some req)).1 =
        Except.error (GoError.wrapped "erro ao gerar resposta final" e2)) := by
  constructor
  · intro h1e
    exact ProcessQuery_round1_error s ctx now elapsedMs req vreq e1 hval h1e
  · intro h1 h0 h2e
    rw [ProcessQuery_with_toolcalls s ctx now elapsedMs req vreq r1 hval h1 h0, h2e]

/-- Witness for C6: concrete runs for a round-1 failure and for a round-2
failure. -/
theorem C6_witness :
    ProcessQuery svcRound1Fails Ctx.root 0 1 (some reqW) =
      (Except.error (GoError.wrapped "erro ao gerar resposta" GoError.llmUnavailable),
       [Event.llmGenerate Ctx.root (initialMessages reqW.query 0) 1]) ∧
    (ProcessQuery svcRound2Fails Ctx.root 0 1 (some reqW)).1 =
      Except.error (GoError.wrapped "erro ao gerar resposta final" GoError.llmTimeout) :=
  ⟨(C6_theorem svcRound1Fails Ctx.root 0 1 reqW reqW GoError.llmUnavailable
      GoError.llmUnavailable respFinal (by rfl)).1 rfl,
   (C6_theorem svcRound2Fails Ctx.root 0 1 reqW reqW GoError.llmTimeout
      GoError.llmTimeout respOneCall (by rfl)).2 rfl (by decide) rfl⟩

/-! ## Claim C7 -/

/-- Claim C7: for every document whose title is empty or longer than 200
bytes, or whose content is empty or longer than 10000 bytes, `AddDocument`
returns a validation error tagged with an offending field name ("title"
or "content") and never calls the store's insert (empty trace); in
particular a 250-character title yields a validation error on field
"title" with zero insert calls. -/
theorem C7_theorem (s : RAGServiceImpl) (ctx : Ctx) (doc : Document)
    (hbad : doc.title = "" ∨ golen doc.title > 200 ∨
      doc.content = "" ∨ golen doc.content > 10000) :
    (∃ f m, AddDocument s ctx (some doc) = (some (GoError.validation f m), []) ∧
      ((f = "title" ∧ (doc.title = "" ∨ golen doc.title > 200)) ∨
       (f = "content" ∧ (doc.content = "" ∨ golen doc.content > 10000)))) ∧
    AddDocument s ctx (some docLongTitle) =
      (some (GoError.validation "title"
        "título muito longo (máximo 200 caracteres)"), []) := by
  constructor
  · by_cases h1 : doc.title = ""
    · exact ⟨"title", "título é obrigatório",
        by simp [AddDocument, validateDocument, h1], Or.inl ⟨rfl, Or.inl h1⟩⟩
    · by_cases h2 : doc.content = ""
      · exact ⟨"content", "conteúdo é obrigatório",
          by simp [AddDocument, validateDocument, h1, h2], Or.inr ⟨rfl, Or.inl h2⟩⟩
      · by_cases h3 : golen doc.title > 200
        · exact ⟨"title", "título muito longo (máximo 200 caracteres)",
            by simp [AddDocument, validateDocument, h1, h2, h3],
            Or.inl ⟨rfl, Or.inr h3⟩⟩
        · by_cases h4 : golen doc.content > 10000
          · exact ⟨"content", "conteúdo muito longo (máximo 10000 caracteres)",
              by simp [AddDocument, validateDocument, h1, h2, h3, h4],
              Or.inr ⟨rfl, Or.inr h4⟩⟩
          · exfalso
            rcases hbad with h | h | h | h
            · exact h1 h
            · exact h3 h
            · exact h2 h
            · exact h4 h
  · rfl

/-- Witness for C7: the 250-character-title document. -/
theorem C7_witness :
    AddDocument svcHealthy Ctx.root (some docLongTitle) =
      (some (GoError.validation "title"
        "título muito longo (máximo 200 caracteres)"), []) :=
  (C7_theorem svcHealthy Ctx.root docLongTitle (Or.inr (Or.inl (by decide)))).2

/-! ## Claim C8 -/

/-- Claim C8: `HealthCheck` probes the Document Store first and the LLM
Client second; when both report healthy it returns no error (and, being a
pure function of its inputs, does so on every repeated invocation); and
whenever the Document Store check fails, it returns that failure wrapped
as a repository error without ever invoking the LLM Client's probe. -/
theorem C8_theorem (s : RAGServiceImpl) (ctx : Ctx) :
    (s.docRepo.healthCheck ctx = none → s.llmClient.healthCheck ctx = none →
      HealthCheck s ctx =
        (none, [Event.repoHealthCheck ctx, Event.llmHealthCheck ctx])) ∧
    (∀ e, s.docRepo.healthCheck ctx = some e →
      HealthCheck s ctx =
        (some (GoError.wrapped "repositório indisponível" e),
         [Event.repoHealthCheck ctx]) ∧
      ∀ ev ∈ (HealthCheck s ctx).2, ev.isLLMHealthCheck = false) := by
  constructor
  · intro hrepo hllm
    unfold HealthCheck
    rw [hrepo, hllm]
  · intro e hrepo
    have hh : HealthCheck s ctx =
        (some (GoError.wrapped "repositório indisponível" e),
         [Event.repoHealthCheck ctx]) := by
      unfold HealthCheck
      rw [hrepo]
    refine ⟨hh, ?_⟩
    intro ev hev
    rw [hh] at hev
    simp only [List.mem_singleton] at hev
    subst hev
    rfl

/-- Witness for C8: both-healthy and store-down concrete services. -/
theorem C8_witness :
    HealthCheck svcHealthy Ctx.root =
      (none, [Event.repoHealthCheck Ctx.root, Event.llmHealthCheck Ctx.root]) ∧
    HealthCheck svcDown Ctx.root =
      (some (GoError.wrapped "repositório indisponível" GoError.repoUnavailable),
       [Event.repoHealthCheck Ctx.root]) :=
  ⟨(C8_theorem svcHealthy Ctx.root).1 rfl rfl,
   ((C8_theorem svcDown Ctx.root).2 GoError.repoUnavailable rfl).1⟩

/-! ## Claim C9 -/

/-- Claim C9: `ProcessQuery`'s request validation mutates the request only
by replacing a non-positive max-results with the configured default:
every other field is always left unchanged, when max-results is already
positive the request is not modified at all, and when validation succeeds
on a non-positive max-results the default is filled in. -/
theorem C9_theorem (cfg : RAGConfig) (req : RAGRequest) :
    ∃ req', (validateRequest cfg (some req)).2 = some req' ∧
      req'.query = req.query ∧ req'.userID = req.userID ∧
      req'.sessionID = req.sessionID ∧ req'.category = req.category ∧
      req'.metadata = req.metadata ∧
      (req.maxResults > 0 → req' = req) ∧
      (req'.maxResults = req.maxResults ∨ req'.maxResults = cfg.maxSearchResults) ∧
      ((validateRequest cfg (some req)).1 = none → req.maxResults ≤ 0 →
        req'.maxResults = cfg.maxSearchResults) := by
  unfold validateRequest
  by_cases h1 : req.query = ""
  · exact ⟨req, by simp [h1], rfl, rfl, rfl, rfl, rfl, fun _ => rfl, Or.inl rfl,
      fun hnone => by simp [h1] at hnone⟩
  · by_cases h2 : golen req.query < 3
    · exact ⟨req, by simp [h1, h2], rfl, rfl, rfl, rfl, rfl, fun _ => rfl,
        Or.inl rfl, fun hnone => by simp [h1, h2] at hnone⟩
    · by_cases h3 : golen req.query > 1000
      · exact ⟨req, by simp [h1, h2, h3], rfl, rfl, rfl, rfl, rfl, fun _ => rfl,
          Or.inl rfl, fun hnone => by simp [h1, h2, h3] at hnone⟩
      · by_cases h4 : req.maxResults ≤ 0
        · exact ⟨{ req with maxResults := cfg.maxSearchResults },
            by simp [h1, h2, h3, h4], rfl, rfl, rfl, rfl, rfl,
            fun hp => absurd hp (by omega), Or.inr rfl, fun _ _ => rfl⟩
        · exact ⟨req, by simp [h1, h2, h3, h4], rfl, rfl, rfl, rfl, rfl,
            fun _ => rfl, Or.inl rfl, fun _ h => absurd h h4⟩

/-- Witness for C9: a positive max-results request is left untouched. -/
theorem C9_witness :
    reqW.maxResults > 0 ∧ (validateRequest cfgW (some reqW)).2 = some reqW := by
  obtain ⟨req', h2, -, -, -, -, -, hpos, -, -⟩ := C9_theorem cfgW reqW
  have h := hpos (by decide)
  subst h
  exact ⟨by decide, h2⟩

/-! ## Claim C10 -/

/-- Claim C10: there is a valid request whose round-1 response contains
exactly one tool call named `search_metadata` with arguments that do not
parse as a JSON object, for which `ProcessQuery` succeeds with
`search_performed = true` even though the Document Store's search is never
invoked: the flag is set before argument parsing. -/
theorem C10_theorem :
    (validateRequest svcBadArgs.config (some reqW)).1 = none ∧
    respBadArgs.toolCalls.map ToolCall.name = ["search_metadata"] ∧
    ParseToolArguments argsBad =
      Except.error (GoError.wrapped "erro ao fazer parse dos argumentos"
        (GoError.other "invalid JSON input")) ∧
    (ProcessQuery svcBadArgs Ctx.root 0 1 (some reqW)).1 =
      Except.ok
        { answer := "final answer", sources := [], query := reqW.query
          processingTime := 1, searchPerformed := true, model := "gpt-4"
          tokensUsed := 9 } ∧
    ((ProcessQuery svcBadArgs Ctx.root 0 1 (some reqW)).2.filter
      Event.isRepoSearch) = [] :=
  ⟨rfl, rfl, rfl, rfl, rfl⟩

end AgenticRAG
